import Mathlib

/-!
Verification of the bundle-serving and bootstrap logic of git-bundle-server.

The Go sources embedded here:
- `bundleWebServer.parseRoute`, `bundleWebServer.serve`, `NewBundleWebServer`
  from the web-server command,
- `initCmd.Run` from cmd/git-bundle-server/init.go,
- `startCmd.Run` from the start command.

External collaborators (the filesystem, the git backend, the route registry
loader) are passed in as explicit parameters, so the embedded functions are
pure and executable.
-/

namespace GitBundleServer

/-- Per-route metadata, mirroring the Go repository record: a private working
directory (`RepoDir`) and a web-exposed directory (`WebDir`). -/
structure Repository where
  RepoDir : String
  WebDir : String
deriving DecidableEq, Repr

/-- Modelled from the spec: the reserved manifest filename for the
directory-relative variant (`bundles.BundleListFilename`). The constant is
declared in the internal bundles package, which is not under src/; only its
non-emptiness and distinctness from the other reserved name matter here. -/
def BundleListFilename : String := "bundle-list"

/-- Modelled from the spec: the reserved manifest filename for the
file-relative variant (`bundles.RepoBundleListFilename`). The constant is
declared in the internal bundles package, which is not under src/. -/
def RepoBundleListFilename : String := "repo-bundle-list"

/-- Embedding of Go `filepath.Join(a, b)` for the clean, relative components
used in this code base: join with a single separator (path cleaning is the
identity on the inputs that occur here). -/
def filepathJoin (a b : String) : String := a ++ "/" ++ b

/-- Embedding of Go `strings.FieldsFunc(path, char == slash)`: split into
maximal runs of characters that are not the separator, dropping empty runs.
The accumulator holds the current run in reverse. -/
def fieldsAux : List Char → List Char → List String
  | [], acc => if acc = [] then [] else [String.mk acc.reverse]
  | c :: rest, acc =>
    if c = '/' then
      if acc = [] then fieldsAux rest []
      else String.mk acc.reverse :: fieldsAux rest []
    else fieldsAux rest (c :: acc)

/-- The list of non-empty slash-separated segments of a path, as computed by
`strings.FieldsFunc` in `bundleWebServer.parseRoute`. -/
def fieldsSlash (path : String) : List String := fieldsAux path.toList []

/-- Embedding of `bundleWebServer.parseRoute`: switch on the number of
non-empty segments of the URL path. -/
def parseRoute (path : String) : Except String (String × String × String) :=
  match fieldsSlash path with
  | [] => .error "empty route"
  | [_] => .error "route has owner, but no repo"
  | [owner, repo] => .ok (owner, repo, "")
  | [owner, repo, filename] => .ok (owner, repo, filename)
  | _ => .error "path has depth exceeding three"

/-- True when the last character of the path is a slash. In the Go source the
check is `path[len(path)-1] == slash`, a byte index that is only reached after
`parseRoute` succeeded (claim C9 shows the index is then in bounds); on the
empty string this model returns `false` where Go would panic. -/
def hasTrailingSlash (path : String) : Bool :=
  path.toList.getLastD ' ' = '/'

/-- Outcome of `bundleWebServer.serve` for one request: the HTTP status
written plus, on success, the resolved file. -/
inductive ServeResult where
  | notFound
  | internalError
  | served (fileToServe : String)
deriving DecidableEq, Repr

/-- The HTTP status code each `ServeResult` writes to the client. -/
def httpStatus : ServeResult → Nat
  | .notFound => 404
  | .internalError => 500
  | .served _ => 200

/-- Embedding of `bundleWebServer.serve`. The registry load
(`repoProvider.GetRepositories`) is passed as `repos?` (`none` models a load
failure), and the filesystem as `openOk` (whether `os.OpenFile` on a path
succeeds). Mirrors the Go control flow: parse the route, load the registry,
look up the route, choose the file to serve, open and stream it. -/
def serve (repos? : Option (String → Option Repository)) (openOk : String → Bool)
    (path : String) : ServeResult :=
  match parseRoute path with
  | .error _ => .notFound
  | .ok (owner, repo, filename) =>
    let route := owner ++ "/" ++ repo
    match repos? with
    | none => .internalError
    | some repos =>
      match repos route with
      | none => .notFound
      | some repository =>
        let fileToServe? : Option String :=
          if filename = "" then
            if hasTrailingSlash path then
              some (filepathJoin repository.WebDir BundleListFilename)
            else
              some (filepathJoin repository.WebDir RepoBundleListFilename)
          else if filename = BundleListFilename ∨ filename = RepoBundleListFilename then
            none
          else
            some (filepathJoin repository.WebDir filename)
        match fileToServe? with
        | none => .notFound
        | some fileToServe =>
          if openOk fileToServe then .served fileToServe else .notFound

/-- A byte sequence (file contents), as read by `os.ReadFile`. -/
abbrev ByteSeq := List Nat

/-- The observable configuration produced by `NewBundleWebServer`: the listen
address, whether `ListenAndServeTLS` (rather than plain `ListenAndServe`) will
be used, the minimum TLS protocol version when a TLS config was installed,
whether client certificates are required and verified
(`tls.RequireAndVerifyClientCert`), and the CA bundle bytes the client-CA pool
was built from (the pool is determined by those bytes). -/
structure ServerConfig where
  addr : String
  useTLS : Bool
  tlsMinVersion : Option Nat
  clientAuthRequired : Bool
  clientCAs : Option ByteSeq
deriving DecidableEq, Repr

/-- Embedding of `NewBundleWebServer`. The filesystem read (`os.ReadFile`) is
passed as `readFile` (`none` models a read error). Mirrors the Go control
flow: build the plain server; return early when no certificate file is given;
otherwise install a TLS config with the given minimum version and, when a
client-CA file is given, require and verify client certificates against a
pool built from that file, failing if the file cannot be read. The bool
result of `AppendCertsFromPEM` is ignored, as in the source. -/
def NewBundleWebServer (readFile : String → Option ByteSeq)
    (port certFile keyFile : String) (tlsMinVersion : Nat) (clientCAFile : String) :
    Except String ServerConfig :=
  let plain : ServerConfig :=
    { addr := ":" ++ port, useTLS := false, tlsMinVersion := none,
      clientAuthRequired := false, clientCAs := none }
  let _ := keyFile
  if certFile = "" then
    .ok plain
  else
    let cfg : ServerConfig :=
      { plain with useTLS := true, tlsMinVersion := some tlsMinVersion }
    if clientCAFile ≠ "" then
      match readFile clientCAFile with
      | none => .error "failed to read client CA file"
      | some caBytes =>
        .ok { cfg with clientAuthRequired := true, clientCAs := some caBytes }
    else
      .ok cfg

/-- The mode flag of a bundle list: one self-contained bundle, or a base
bundle plus a chain of incrementals. -/
inductive BundleListMode where
  | single
  | incremental
deriving DecidableEq, Repr

/-- One published bundle artifact, identified by its filename. -/
structure BundleDescriptor where
  Filename : String
deriving DecidableEq, Repr

/-- The manifest for a route: a mode flag plus the ordered collection of
bundle descriptors. -/
structure BundleList where
  mode : BundleListMode
  bundles : List BundleDescriptor
deriving DecidableEq, Repr

/-- Modelled from the spec: `bundles.CreateInitialBundle` (internal bundles
package, not under src/) computes the base-bundle descriptor for a fresh
repository, a full bundle stored under the working directory. -/
def CreateInitialBundle (repo : Repository) : BundleDescriptor :=
  { Filename := filepathJoin repo.RepoDir "base.bundle" }

/-- Modelled from the spec: `bundles.CreateSingletonList` (internal bundles
package, not under src/) builds the bootstrap manifest, a fresh singleton
list holding exactly the given descriptor. -/
def CreateSingletonList (bundle : BundleDescriptor) : BundleList :=
  { mode := .single, bundles := [bundle] }

/-- Embedding of `initCmd.Run` from cmd/git-bundle-server/init.go. The
external collaborators are passed as parameters: `createRepo` is the outcome
of `core.CreateRepository`, `clone`, `configRefspec` and `fetch` are the
outcomes of the three `git.GitCommand` invocations, `createBundle` is
`git.CreateBundle` applied to the bundle filename (its `Bool` is the
`written` flag), and `writeBundleList` is `bundles.WriteBundleList` applied
to the constructed list. The second component of the result records the
bundle list passed to `WriteBundleList`, or `none` when the flow returned
before reaching that call. -/
def initRun (createRepo : Except String Repository)
    (clone configRefspec fetch : Except String Unit)
    (createBundle : String → Except String Bool)
    (writeBundleList : BundleList → Except String Unit) :
    Except String Unit × Option BundleList :=
  match createRepo with
  | .error e => (.error e, none)
  | .ok repo =>
    match clone with
    | .error _ => (.error "failed to clone repository", none)
    | .ok _ =>
      match configRefspec with
      | .error _ => (.error "failed to configure refspec", none)
      | .ok _ =>
        match fetch with
        | .error _ => (.error "failed to fetch latest refs", none)
        | .ok _ =>
          let bundle := CreateInitialBundle repo
          match createBundle bundle.Filename with
          | .error _ => (.error "failed to create bundle", none)
          | .ok written =>
            if !written then
              (.error "refused to write empty bundle. Is the repo empty?", none)
            else
              let list := CreateSingletonList bundle
              match writeBundleList list with
              | .error _ => (.error "failed to write bundle list", some list)
              | .ok _ => (.ok (), some list)

/-- A route is valid when its slash-separated depth is 2 or 3 (spec data
model invariant). -/
def validRoute (route : String) : Bool :=
  match fieldsSlash route with
  | [_, _] => true
  | [_, _, _] => true
  | _ => false

/-- The registry state seen by `core.CreateRepository`: the registered routes
with their records, plus the external fact of whether the working directory
of a route currently exists and is non-empty. -/
structure RegistryState where
  entries : String → Option Repository
  nonEmptyWorkDir : String → Bool

/-- Modelled from the spec: the storage-layout contract derives both
directory paths purely from the route string. -/
def repoForRoute (route : String) : Repository :=
  { RepoDir := filepathJoin "git" route, WebDir := filepathJoin "www" route }

/-- Modelled from the spec: `core.CreateRepository` (the registry `Register`
operation, internal core package, not under src/). It fails with
`InvalidRoute` on a malformed route, fails with `AlreadyExists` if a
repository is already registered at the route with a non-empty working
directory, and otherwise succeeds idempotently, creating the storage paths
and the registry entry. -/
def CreateRepository (reg : RegistryState) (route : String) :
    Except String (Repository × RegistryState) :=
  if ¬ validRoute route then
    .error "InvalidRoute"
  else if (reg.entries route).isSome ∧ reg.nonEmptyWorkDir route then
    .error "AlreadyExists"
  else
    let repo := repoForRoute route
    .ok (repo,
      { reg with entries := fun r => if r = route then some repo else reg.entries r })

/-- The bootstrap flow for a route, as the `init` command runs it: register
the route via `core.CreateRepository`, then run the rest of `initCmd.Run` on
the resulting record. -/
def registerAndInit (reg : RegistryState) (route : String)
    (clone configRefspec fetch : Except String Unit)
    (createBundle : String → Except String Bool)
    (writeBundleList : BundleList → Except String Unit) :
    Except String Unit × Option BundleList :=
  initRun ((CreateRepository reg route).map Prod.fst)
    clone configRefspec fetch createBundle writeBundleList

/-- The empty path has no segments, so `parseRoute` rejects it. -/
theorem parseRoute_empty : parseRoute "" = .error "empty route" := rfl

/-- C2: `parseRoute` splits the URL path on the slash separator ignoring
empty segments; exactly 2 non-empty segments yield `(owner, repo, "")`,
exactly 3 yield `(owner, repo, filename)`, and any other segment count is an
error. In particular `/a/b` parses to `("a","b","")`, `/a/b/c` parses to
`("a","b","c")`, and `/a`, `/`, `/a/b/c/d` all fail. -/
theorem parseRoute_segment_cases (path : String) :
    (match fieldsSlash path with
     | [owner, repo] => parseRoute path = .ok (owner, repo, "")
     | [owner, repo, filename] => parseRoute path = .ok (owner, repo, filename)
     | _ => ∃ e, parseRoute path = .error e)
    ∧ parseRoute "/a/b" = .ok ("a", "b", "")
    ∧ parseRoute "/a/b/c" = .ok ("a", "b", "c")
    ∧ (∃ e, parseRoute "/a" = .error e)
    ∧ (∃ e, parseRoute "/" = .error e)
    ∧ (∃ e, parseRoute "/a/b/c/d" = .error e) := by
  refine ⟨?_, rfl, rfl, ⟨_, rfl⟩, ⟨_, rfl⟩, ⟨_, rfl⟩⟩
  cases h : fieldsSlash path with
  | nil =>
    simp only [parseRoute, h]
    exact ⟨_, rfl⟩
  | cons a t =>
    cases t with
    | nil =>
      simp only [parseRoute, h]
      exact ⟨_, rfl⟩
    | cons b t2 =>
      cases t2 with
      | nil => simp [parseRoute, h]
      | cons c t3 =>
        cases t3 with
        | nil => simp [parseRoute, h]
        | cons d t4 =>
          simp only [parseRoute, h]
          exact ⟨_, rfl⟩

/-- C9: whenever `parseRoute` succeeds, the path is non-empty, so the byte
index `path[len(path)-1]` used by the trailing-slash check in `serve` is in
bounds. -/
theorem parseRoute_ok_path_nonempty (path : String) (r : String × String × String)
    (h : parseRoute path = .ok r) : path ≠ "" ∧ 0 < path.length := by
  have hne : path ≠ "" := by
    intro he
    rw [he, parseRoute_empty] at h
    exact Except.noConfusion h
  refine ⟨hne, ?_⟩
  rcases path with ⟨data⟩
  cases data with
  | nil => exact absurd rfl hne
  | cons c cs => simp [String.length]

/-- C9 witness: instantiated on the concrete path `/a/b`. -/
theorem parseRoute_ok_path_nonempty_witness :
    ("/a/b" : String) ≠ "" ∧ 0 < ("/a/b" : String).length :=
  parseRoute_ok_path_nonempty "/a/b" ("a", "b", "") rfl

/-- When the registry loads, `serve` never answers 500: every failure after a
successful registry load is a 404. -/
theorem serve_some_ne_internalError (repos : String → Option Repository)
    (openOk : String → Bool) (path : String) :
    serve (some repos) openOk path ≠ .internalError := by
  unfold serve
  cases parseRoute path with
  | error e => simp
  | ok t =>
    obtain ⟨owner, repo, filename⟩ := t
    dsimp only
    cases repos (owner ++ "/" ++ repo) with
    | none => simp
    | some repository =>
      dsimp only
      split
      · simp
      · split <;> simp

/-- C1 counterexample: a registry-load failure (`GetRepositories` returning
an error) on a well-formed route makes `serve` write 500, not 404. -/
theorem serve_registry_failure_is_500 :
    serve none (fun _ => true) "/a/b" = .internalError ∧
      httpStatus (serve none (fun _ => true) "/a/b") ≠ 404 := by decide

/-- C1 amended: malformed routes, unknown routes, reserved filenames and
missing files all collapse to HTTP 404 (once the registry loads, the only
statuses are 404 and 200), but a registry-load failure is answered with HTTP
500 whenever the route parses. -/
theorem serve_status_taxonomy (repos : String → Option Repository)
    (openOk : String → Bool) (path : String) :
    (httpStatus (serve (some repos) openOk path) = 404 ∨
      httpStatus (serve (some repos) openOk path) = 200)
    ∧ (serve none openOk path = .internalError ↔ ∃ r, parseRoute path = .ok r) := by
  constructor
  · cases hres : serve (some repos) openOk path with
    | notFound => exact Or.inl rfl
    | internalError => exact absurd hres (serve_some_ne_internalError repos openOk path)
    | served f => exact Or.inr rfl
  · cases h : parseRoute path with
    | error e => simp [serve, h]
    | ok t =>
      obtain ⟨owner, repo, filename⟩ := t
      simp [serve, h]

/-- C3: when the parsed filename is empty and the repository resolves, the
file served is the directory-relative manifest (`BundleListFilename`) when
the request path ends in a slash and the file-relative manifest
(`RepoBundleListFilename`) otherwise. -/
theorem serve_manifest_variant (repos : String → Option Repository)
    (openOk : String → Bool) (path owner repo : String) (repository : Repository)
    (hparse : parseRoute path = .ok (owner, repo, ""))
    (hrepo : repos (owner ++ "/" ++ repo) = some repository) :
    serve (some repos) openOk path =
      (if openOk (filepathJoin repository.WebDir
          (if hasTrailingSlash path then BundleListFilename else RepoBundleListFilename)) then
        .served (filepathJoin repository.WebDir
          (if hasTrailingSlash path then BundleListFilename else RepoBundleListFilename))
      else .notFound) := by
  unfold serve
  rw [hparse]
  dsimp only
  rw [hrepo]
  dsimp only
  by_cases hts : hasTrailingSlash path <;> simp [hts]

/-- C3 witness: the concrete paths `/a/b/` and `/a/b` receive the two
manifest variants. -/
theorem serve_manifest_variant_witness :
    serve (some (fun r => if r = "a/b" then some ⟨"git/a/b", "www/a/b"⟩ else none))
        (fun _ => true) "/a/b/" = .served "www/a/b/bundle-list"
    ∧ serve (some (fun r => if r = "a/b" then some ⟨"git/a/b", "www/a/b"⟩ else none))
        (fun _ => true) "/a/b" = .served "www/a/b/repo-bundle-list" := by
  constructor
  · rw [serve_manifest_variant
      (fun r => if r = "a/b" then some ⟨"git/a/b", "www/a/b"⟩ else none)
      (fun _ => true) "/a/b/" "a" "b" ⟨"git/a/b", "www/a/b"⟩ rfl (by decide)]
    decide
  · rw [serve_manifest_variant
      (fun r => if r = "a/b" then some ⟨"git/a/b", "www/a/b"⟩ else none)
      (fun _ => true) "/a/b" "a" "b" ⟨"git/a/b", "www/a/b"⟩ rfl (by decide)]
    decide

/-- C6: a request whose parsed filename equals one of the reserved manifest
filenames is rejected with 404 whenever the registry loads, regardless of
whether the route resolves or the file exists. -/
theorem serve_reserved_filename_404 (repos : String → Option Repository)
    (openOk : String → Bool) (path owner repo filename : String)
    (hparse : parseRoute path = .ok (owner, repo, filename))
    (hres : filename = BundleListFilename ∨ filename = RepoBundleListFilename) :
    serve (some repos) openOk path = .notFound := by
  unfold serve
  rw [hparse]
  dsimp only
  cases repos (owner ++ "/" ++ repo) with
  | none => rfl
  | some repository =>
    dsimp only
    have hne : filename ≠ "" := by
      rcases hres with h | h <;> subst h <;> decide
    rw [if_neg hne, if_pos hres]

/-- C6 witness: the concrete request `/a/b/bundle-list` on a registry that
resolves `a/b` and a filesystem where every open succeeds is still a 404. -/
theorem serve_reserved_filename_404_witness :
    serve (some (fun _ => some ⟨"git/a/b", "www/a/b"⟩)) (fun _ => true)
      "/a/b/bundle-list" = .notFound :=
  serve_reserved_filename_404 (fun _ => some ⟨"git/a/b", "www/a/b"⟩) (fun _ => true)
    "/a/b/bundle-list" "a" "b" "bundle-list" rfl (Or.inl rfl)

/-- C8: with no certificate file the server is plain HTTP with no TLS
configuration at all; with a certificate file it uses TLS with the supplied
minimum version; with additionally a readable client-CA file, client
certificates are required and verified against a pool built from that CA
bundle. -/
theorem newBundleWebServer_tls_config (readFile : String → Option ByteSeq)
    (port certFile keyFile : String) (tlsMinVersion : Nat) (clientCAFile : String) :
    (certFile = "" →
      NewBundleWebServer readFile port certFile keyFile tlsMinVersion clientCAFile =
        .ok { addr := ":" ++ port, useTLS := false, tlsMinVersion := none,
              clientAuthRequired := false, clientCAs := none })
    ∧ (certFile ≠ "" → clientCAFile = "" →
      NewBundleWebServer readFile port certFile keyFile tlsMinVersion clientCAFile =
        .ok { addr := ":" ++ port, useTLS := true, tlsMinVersion := some tlsMinVersion,
              clientAuthRequired := false, clientCAs := none })
    ∧ (certFile ≠ "" → clientCAFile ≠ "" → ∀ caBytes, readFile clientCAFile = some caBytes →
      NewBundleWebServer readFile port certFile keyFile tlsMinVersion clientCAFile =
        .ok { addr := ":" ++ port, useTLS := true, tlsMinVersion := some tlsMinVersion,
              clientAuthRequired := true, clientCAs := some caBytes }) := by
  refine ⟨fun hc => ?_, fun hc hca => ?_, fun hc hca caBytes hread => ?_⟩
  · simp [NewBundleWebServer, hc]
  · simp [NewBundleWebServer, hc, hca]
  · simp [NewBundleWebServer, hc, hca, hread]

/-- C8 witness: a concrete mutual-TLS configuration. -/
theorem newBundleWebServer_tls_config_witness :
    NewBundleWebServer (fun _ => some [1, 2]) "8080" "cert.pem" "key.pem" 771 "ca.pem" =
      .ok { addr := ":8080", useTLS := true, tlsMinVersion := some 771,
            clientAuthRequired := true, clientCAs := some [1, 2] } :=
  (newBundleWebServer_tls_config (fun _ => some [1, 2]) "8080" "cert.pem" "key.pem"
    771 "ca.pem").2.2 (by decide) (by decide) [1, 2] rfl

/-- C10: `NewBundleWebServer` fails exactly when a certificate file and a
client-CA file are both given and the CA file cannot be read; with no
certificate file the client-CA argument is ignored (plain HTTP, no client
auth, no error), and a readable CA file never causes an error because the
result of appending its certificates to the pool is ignored. -/
theorem newBundleWebServer_error_iff (readFile : String → Option ByteSeq)
    (port certFile keyFile : String) (tlsMinVersion : Nat) (clientCAFile : String) :
    ((∃ e, NewBundleWebServer readFile port certFile keyFile tlsMinVersion clientCAFile =
        .error e) ↔
      (certFile ≠ "" ∧ clientCAFile ≠ "" ∧ readFile clientCAFile = none))
    ∧ (certFile = "" →
      NewBundleWebServer readFile port certFile keyFile tlsMinVersion clientCAFile =
        .ok { addr := ":" ++ port, useTLS := false, tlsMinVersion := none,
              clientAuthRequired := false, clientCAs := none }) := by
  constructor
  · constructor
    · rintro ⟨e, he⟩
      by_cases hc : certFile = ""
      · simp [NewBundleWebServer, hc] at he
      · by_cases hca : clientCAFile = ""
        · simp [NewBundleWebServer, hc, hca] at he
        · cases hread : readFile clientCAFile with
          | none => exact ⟨hc, hca, rfl⟩
          | some caBytes => simp [NewBundleWebServer, hc, hca, hread] at he
    · rintro ⟨hc, hca, hread⟩
      refine ⟨"failed to read client CA file", ?_⟩
      simp [NewBundleWebServer, hc, hca, hread]
  · intro hc
    simp [NewBundleWebServer, hc]

/-- C10 witness: a concrete unreadable client-CA file with a certificate
configured yields an error, instantiating the error characterization. -/
theorem newBundleWebServer_error_iff_witness :
    ∃ e, NewBundleWebServer (fun _ => none) "80" "cert.pem" "key.pem" 771 "ca.pem" =
      .error e :=
  (newBundleWebServer_error_iff (fun _ => none) "80" "cert.pem" "key.pem" 771
    "ca.pem").1.2 ⟨by decide, by decide, rfl⟩

/-- C4: in the bootstrap flow, once the earlier steps succeed, a backend
report of a zero-byte bundle (`written = false`) aborts with the
empty-repository error and no bundle list is written; conversely the bundle
list write is reached only after the backend confirmed a non-empty bundle. -/
theorem initRun_empty_bundle_aborts (createRepo : Except String Repository)
    (clone configRefspec fetch : Except String Unit)
    (createBundle : String → Except String Bool)
    (writeBundleList : BundleList → Except String Unit) :
    (∀ repo, createRepo = .ok repo → clone = .ok () → configRefspec = .ok () →
      fetch = .ok () → createBundle (CreateInitialBundle repo).Filename = .ok false →
      initRun createRepo clone configRefspec fetch createBundle writeBundleList =
        (.error "refused to write empty bundle. Is the repo empty?", none))
    ∧ (∀ list,
      (initRun createRepo clone configRefspec fetch createBundle writeBundleList).2 =
        some list →
      ∃ repo, createRepo = .ok repo ∧
        createBundle (CreateInitialBundle repo).Filename = .ok true) := by
  constructor
  · intro repo h1 h2 h3 h4 h5
    simp [initRun, h1, h2, h3, h4, h5]
  · intro list hl
    cases hcr : createRepo with
    | error e => simp [initRun, hcr] at hl
    | ok repo =>
      cases hcl : clone with
      | error e => simp [initRun, hcr, hcl] at hl
      | ok u =>
        cases hcf : configRefspec with
        | error e => simp [initRun, hcr, hcl, hcf] at hl
        | ok u2 =>
          cases hft : fetch with
          | error e => simp [initRun, hcr, hcl, hcf, hft] at hl
          | ok u3 =>
            cases hcb : createBundle (CreateInitialBundle repo).Filename with
            | error e => simp [initRun, hcr, hcl, hcf, hft, hcb] at hl
            | ok written =>
              cases written with
              | false => simp [initRun, hcr, hcl, hcf, hft, hcb] at hl
              | true => exact ⟨repo, rfl, hcb⟩

/-- C4 witness: a concrete bootstrap where the backend reports an empty
bundle fails with the empty-repository error without writing a list. -/
theorem initRun_empty_bundle_aborts_witness :
    initRun (.ok ⟨"git/a/b", "www/a/b"⟩) (.ok ()) (.ok ()) (.ok ())
      (fun _ => .ok false) (fun _ => .ok ()) =
      (.error "refused to write empty bundle. Is the repo empty?", none) :=
  (initRun_empty_bundle_aborts (.ok ⟨"git/a/b", "www/a/b"⟩) (.ok ()) (.ok ()) (.ok ())
    (fun _ => .ok false) (fun _ => .ok ())).1 ⟨"git/a/b", "www/a/b"⟩ rfl rfl rfl rfl rfl

/-- A successful bootstrap run publishes exactly the singleton list built
from the base bundle. -/
theorem initRun_ok_published (createRepo : Except String Repository)
    (clone configRefspec fetch : Except String Unit)
    (createBundle : String → Except String Bool)
    (writeBundleList : BundleList → Except String Unit)
    (h : (initRun createRepo clone configRefspec fetch createBundle writeBundleList).1 =
      .ok ()) :
    ∃ bundle,
      (initRun createRepo clone configRefspec fetch createBundle writeBundleList).2 =
        some (CreateSingletonList bundle) := by
  cases hcr : createRepo with
  | error e => simp [initRun, hcr] at h
  | ok repo =>
    cases hcl : clone with
    | error e => simp [initRun, hcr, hcl] at h
    | ok u =>
      cases hcf : configRefspec with
      | error e => simp [initRun, hcr, hcl, hcf] at h
      | ok u2 =>
        cases hft : fetch with
        | error e => simp [initRun, hcr, hcl, hcf, hft] at h
        | ok u3 =>
          cases hcb : createBundle (CreateInitialBundle repo).Filename with
          | error e => simp [initRun, hcr, hcl, hcf, hft, hcb] at h
          | ok written =>
            cases written with
            | false => simp [initRun, hcr, hcl, hcf, hft, hcb] at h
            | true =>
              cases hwl : writeBundleList (CreateSingletonList (CreateInitialBundle repo)) with
              | error e => simp [initRun, hcr, hcl, hcf, hft, hcb, hwl] at h
              | ok u4 =>
                exact ⟨CreateInitialBundle repo,
                  by simp [initRun, hcr, hcl, hcf, hft, hcb, hwl]⟩

/-- C5: after registering a route and completing a successful bootstrap, the
published bundle list is in single mode and contains exactly one
descriptor. -/
theorem registerAndInit_singleton (reg : RegistryState) (route : String)
    (clone configRefspec fetch : Except String Unit)
    (createBundle : String → Except String Bool)
    (writeBundleList : BundleList → Except String Unit)
    (h : (registerAndInit reg route clone configRefspec fetch createBundle
      writeBundleList).1 = .ok ()) :
    ∃ list,
      (registerAndInit reg route clone configRefspec fetch createBundle
        writeBundleList).2 = some list
      ∧ list.mode = .single ∧ list.bundles.length = 1 := by
  obtain ⟨bundle, hb⟩ := initRun_ok_published
    ((CreateRepository reg route).map Prod.fst) clone configRefspec fetch
    createBundle writeBundleList h
  exact ⟨CreateSingletonList bundle, hb, rfl, rfl⟩

/-- C5 witness: a concrete register-then-bootstrap run on the route `a/b`
publishes a single-mode singleton list. -/
theorem registerAndInit_singleton_witness :
    ∃ list, (registerAndInit ⟨fun _ => none, fun _ => false⟩ "a/b"
      (.ok ()) (.ok ()) (.ok ()) (fun _ => .ok true) (fun _ => .ok ())).2 = some list
      ∧ list.mode = .single ∧ list.bundles.length = 1 :=
  registerAndInit_singleton ⟨fun _ => none, fun _ => false⟩ "a/b"
    (.ok ()) (.ok ()) (.ok ()) (fun _ => .ok true) (fun _ => .ok ()) rfl

/-- C7: registering a valid route whose working directory was externally
removed succeeds (it is a fresh bootstrap), and registration fails with
`AlreadyExists` exactly when the route is registered and its working
directory is non-empty. -/
theorem createRepository_deleted_dir_fresh (reg : RegistryState) (route : String)
    (hvalid : validRoute route = true) :
    (reg.nonEmptyWorkDir route = false → ∃ p, CreateRepository reg route = .ok p)
    ∧ (CreateRepository reg route = .error "AlreadyExists" ↔
      ((reg.entries route).isSome = true ∧ reg.nonEmptyWorkDir route = true)) := by
  constructor
  · intro hdir
    unfold CreateRepository
    rw [if_neg (by simp [hvalid]), if_neg (by simp [hdir])]
    exact ⟨_, rfl⟩
  · unfold CreateRepository
    rw [if_neg (by simp [hvalid])]
    by_cases hcond : (reg.entries route).isSome = true ∧ reg.nonEmptyWorkDir route = true
    · rw [if_pos hcond]
      simp [hcond]
    · rw [if_neg hcond]
      simp [hcond]

/-- C7 witness: a registry that still holds an entry for `a/b` but whose
working directory is gone accepts a fresh registration of `a/b`. -/
theorem createRepository_deleted_dir_fresh_witness :
    ∃ p, CreateRepository
      ⟨fun r => if r = "a/b" then some (repoForRoute "a/b") else none, fun _ => false⟩
      "a/b" = .ok p :=
  (createRepository_deleted_dir_fresh
    ⟨fun r => if r = "a/b" then some (repoForRoute "a/b") else none, fun _ => false⟩
    "a/b" (by decide)).1 rfl

end GitBundleServer
